import Mathlib

/-!
Verification of the telemetry sampling and dispatch policy of the
bustracker driver app (web variant `src/App.tsx`, native variant
`src/unnamed/part_001`; the dispatch logic is line-for-line identical in
the two variants) and of its data service (`src/services/dataService.ts`).

Embedding conventions:
* JavaScript floating-point numbers are embedded as real numbers (`ℝ`);
  millisecond instants (`Date.now()` values and `Date` objects) are
  embedded as integers (`ℤ`).
* TypeScript nullable and optional fields (`T | null`, `field?: T`) are
  embedded as `Option`.
* The external Firebase SDK and the external database write are modelled
  as explicit outcome parameters (`SdkOutcome`, `WriteOutcome`,
  `SinkBehavior`): the embedded functions are total, mirroring the
  source's `try`/`catch` boundaries that convert thrown errors into
  return values.
* React `useState`/`useRef` cells are threaded as explicit state values.
-/

namespace DriverApp

/-- JavaScript `Math.atan2 y x` on finite real arguments: the angle of the
point `(x, y)`, in `(-π, π]`, following the ECMAScript case split on the
signs of `x` and `y`. -/
noncomputable def atan2 (y x : ℝ) : ℝ :=
  if 0 < x then Real.arctan (y / x)
  else if x < 0 then
    (if 0 ≤ y then Real.arctan (y / x) + Real.pi else Real.arctan (y / x) - Real.pi)
  else
    (if 0 < y then Real.pi / 2 else if y < 0 then -(Real.pi / 2) else 0)

/-- Haversine distance in metres between two latitude/longitude points, from
`getDistanceInMeters` in `src/App.tsx` lines 11-24 (`src/unnamed/part_001`
lines 29-42 is identical). `R = 6371e3` metres. -/
noncomputable def getDistanceInMeters (lat1 lon1 lat2 lon2 : ℝ) : ℝ :=
  let R : ℝ := 6371e3
  let φ1 := lat1 * Real.pi / 180
  let φ2 := lat2 * Real.pi / 180
  let Δφ := (lat2 - lat1) * Real.pi / 180
  let Δlon := (lon2 - lon1) * Real.pi / 180
  let a := Real.sin (Δφ / 2) * Real.sin (Δφ / 2) +
    Real.cos φ1 * Real.cos φ2 * Real.sin (Δlon / 2) * Real.sin (Δlon / 2)
  let c := 2 * atan2 (Real.sqrt a) (Real.sqrt (1 - a))
  R * c

/-- The haversine term `a` of `getDistanceInMeters`, named so theorems can
refer to it. -/
noncomputable def haversineTerm (lat1 lon1 lat2 lon2 : ℝ) : ℝ :=
  Real.sin ((lat2 - lat1) * Real.pi / 180 / 2) * Real.sin ((lat2 - lat1) * Real.pi / 180 / 2) +
    Real.cos (lat1 * Real.pi / 180) * Real.cos (lat2 * Real.pi / 180) *
      Real.sin ((lon2 - lon1) * Real.pi / 180 / 2) * Real.sin ((lon2 - lon1) * Real.pi / 180 / 2)

lemma atan2_nonneg (y x : ℝ) (hy : 0 ≤ y) : 0 ≤ atan2 y x := by
  unfold atan2
  split_ifs with h1 h2 h3 h4
  · exact Real.arctan_zero ▸ Real.arctan_strictMono.monotone (div_nonneg hy h1.le)
  · have h := Real.neg_pi_div_two_lt_arctan (y / x)
    have hpi := Real.pi_pos
    linarith
  · positivity
  · linarith
  · exact le_refl 0

lemma atan2_zero_one : atan2 0 1 = 0 := by
  unfold atan2
  rw [if_pos one_pos]
  simp [Real.arctan_zero]

lemma getDistanceInMeters_self (lat lon : ℝ) :
    getDistanceInMeters lat lon lat lon = 0 := by
  simp only [getDistanceInMeters, sub_self, zero_mul, zero_div, Real.sin_zero,
    mul_zero, zero_add, add_zero, Real.sqrt_zero, sub_zero, Real.sqrt_one]
  rw [atan2_zero_one]
  ring

lemma getDistanceInMeters_comm (lat1 lon1 lat2 lon2 : ℝ) :
    getDistanceInMeters lat1 lon1 lat2 lon2 = getDistanceInMeters lat2 lon2 lat1 lon1 := by
  simp only [getDistanceInMeters]
  have h1 : (lat1 - lat2) * Real.pi / 180 / 2 = -((lat2 - lat1) * Real.pi / 180 / 2) := by ring
  have h2 : (lon1 - lon2) * Real.pi / 180 / 2 = -((lon2 - lon1) * Real.pi / 180 / 2) := by ring
  have ha : Real.sin ((lat1 - lat2) * Real.pi / 180 / 2) * Real.sin ((lat1 - lat2) * Real.pi / 180 / 2) +
      Real.cos (lat2 * Real.pi / 180) * Real.cos (lat1 * Real.pi / 180) *
        Real.sin ((lon1 - lon2) * Real.pi / 180 / 2) * Real.sin ((lon1 - lon2) * Real.pi / 180 / 2) =
      Real.sin ((lat2 - lat1) * Real.pi / 180 / 2) * Real.sin ((lat2 - lat1) * Real.pi / 180 / 2) +
      Real.cos (lat1 * Real.pi / 180) * Real.cos (lat2 * Real.pi / 180) *
        Real.sin ((lon2 - lon1) * Real.pi / 180 / 2) * Real.sin ((lon2 - lon1) * Real.pi / 180 / 2) := by
    rw [h1, h2, Real.sin_neg, Real.sin_neg]
    ring
  rw [ha]

lemma getDistanceInMeters_nonneg (lat1 lon1 lat2 lon2 : ℝ) :
    0 ≤ getDistanceInMeters lat1 lon1 lat2 lon2 := by
  simp only [getDistanceInMeters]
  have h := atan2_nonneg (Real.sqrt (haversineTerm lat1 lon1 lat2 lon2))
    (Real.sqrt (1 - haversineTerm lat1 lon1 lat2 lon2)) (Real.sqrt_nonneg _)
  simp only [haversineTerm] at h
  positivity

/-- Travel direction of the bus: the `direction` field union
`'northbound' | 'southbound'` of `BusTelemetry` in `types.ts` (staged as
the types segment of `src/unnamed/part_001`). -/
inductive Direction
  | northbound
  | southbound
deriving DecidableEq

/-- Severity of a log entry: the `type` union
`'info' | 'success' | 'error' | 'warning'` of `LogEntry` in `types.ts`
(staged in `src/unnamed/part_001`). -/
inductive LogType
  | info
  | success
  | error
  | warning
deriving DecidableEq

/-- One entry of the log buffer: `LogEntry` of `types.ts` (staged in
`src/unnamed/part_001`): `id: string`, `timestamp: Date` (embedded as its
epoch-millisecond instant), `type`, `message: string` — the fields `addLog`
constructs (`src/App.tsx` lines 75-82). -/
structure LogEntry where
  id : String
  timestamp : ℤ
  type : LogType
  message : String
deriving DecidableEq

/-- One outbound telemetry record: `BusTelemetry` of `types.ts` (staged in
`src/unnamed/part_001`). `speed`, `heading`, `batteryLevel` and
`isCharging` are declared nullable there (`number | null`,
`boolean | null`), embedded as `Option`. -/
structure BusTelemetry where
  busId : String
  direction : Direction
  routeId : String
  timestamp : ℤ
  latitude : ℝ
  longitude : ℝ
  speed : Option ℝ
  heading : Option ℝ
  batteryLevel : Option ℝ
  isCharging : Option Bool

/-- The Dispatch Memory: the pair of refs `lastSentLocationRef` /
`lastSentTimeRef` of `src/App.tsx` lines 50-51 (initial values `null` and
`0`). -/
structure DispatchMemory where
  lastLoc : Option (ℝ × ℝ)
  lastTime : ℤ

/-- The distance/time filter of `processPosition` (`src/App.tsx` lines
202-220): given the new fix's coordinates, the current instant and the
Dispatch Memory, the pair `(shouldSend, distanceMoved)`. The decision is a
`Prop` because it compares real numbers. -/
noncomputable def shouldDispatch (latitude longitude : ℝ) (now : ℤ)
    (mem : DispatchMemory) : Prop × ℝ :=
  match mem.lastLoc with
  | none => (True, 0)
  | some lastLoc =>
      let distanceMoved := getDistanceInMeters lastLoc.1 lastLoc.2 latitude longitude
      let timeElapsed := now - mem.lastTime
      (distanceMoved > 20 ∨ timeElapsed > 30000, distanceMoved)

/-- Outcome of one `await pushTelemetry(telemetry)` call as `processPosition`
observes it: the promise resolves to a boolean, or it rejects and the
`catch (e)` branch runs. -/
inductive SinkBehavior
  | resolves (success : Bool)
  | throws (msg : String)

/-- Status banner colour, from the `statusType` state of `src/App.tsx`
line 60. -/
inductive StatusType
  | normal
  | error
  | success
deriving DecidableEq

/-- What one `processPosition` call does to the telemetry state: the Dispatch
Memory afterwards, the record handed to the sink (if the filter decided to
send), whether the sink acknowledged it, and the log entry / final status
banner emitted by the attempt. -/
structure StepOutput where
  mem : DispatchMemory
  attempted : Option BusTelemetry
  succeeded : Bool
  log : Option (LogType × String)
  status : Option (String × StatusType)

open Classical in
/-- One position update, from `processPosition` in `src/App.tsx` lines
195-265 (identical in `src/unnamed/part_001` lines 219-289). The UI-only
setters (`setLastLocation`, `setCurrentSpeed`, `setLastSentTime`), the
transient "Syncing..." banner and the 2-second `setTimeout` reset are
omitted; `log` keeps the entry's kind and message (the success message's
interpolated rounded distance is elided), `status` the final banner of the
attempt. The source's `try`/`catch` around the sink call is the `throws`
case: the function is total, no exception propagates. -/
noncomputable def processPosition (busId : String) (direction : Direction)
    (batteryLevel : ℝ) (isCharging : Bool)
    (latitude longitude : ℝ) (speed heading : Option ℝ)
    (now : ℤ) (mem : DispatchMemory) (sink : SinkBehavior) : StepOutput :=
  let result := shouldDispatch latitude longitude now mem
  if result.1 then
    let telemetry : BusTelemetry :=
      { busId := busId, direction := direction, routeId := "alabang-lawton",
        timestamp := now, latitude := latitude, longitude := longitude,
        speed := speed, heading := heading,
        batteryLevel := some (batteryLevel / 100),
        isCharging := some isCharging }
    match sink with
    | SinkBehavior.resolves true =>
        { mem := { lastLoc := some (latitude, longitude), lastTime := now },
          attempted := some telemetry, succeeded := true,
          log := some (LogType.success, "Sent"),
          status := some ("Data Synced", StatusType.success) }
    | SinkBehavior.resolves false =>
        { mem := mem, attempted := some telemetry, succeeded := false,
          log := some (LogType.error, "Firebase sync failed"),
          status := some ("Sync Failed", StatusType.error) }
    | SinkBehavior.throws m =>
        { mem := mem, attempted := some telemetry, succeeded := false,
          log := some (LogType.error, "Net Err: " ++ m),
          status := some ("Network Error", StatusType.error) }
  else
    { mem := mem, attempted := none, succeeded := false, log := none, status := none }

/-- The tracking-related state `toggleTracking` can touch: the `isTracking`
flag and the Dispatch Memory refs of `src/App.tsx` lines 45, 50-51. -/
structure AppTrackingState where
  isTracking : Bool
  mem : DispatchMemory

/-- `toggleTracking` from `src/App.tsx` lines 310-318: it flips `isTracking`
and (on starting) requests the wake lock — a platform effect with no
telemetry state. It does not touch `lastSentLocationRef` or
`lastSentTimeRef`. -/
def toggleTracking (s : AppTrackingState) : AppTrackingState :=
  { s with isTracking := !s.isTracking }

/-- `addLog` from `src/App.tsx` lines 75-82:
`setLogs(prev => [...prev.slice(-49), {id, timestamp, type, message}])`.
JavaScript `prev.slice(-49)` is the last 49 elements (all of them when there
are fewer), i.e. `prev.drop (prev.length - 49)` with truncating subtraction. -/
def addLog (prev : List LogEntry) (id : String) (timestamp : ℤ)
    (type : LogType) (message : String) : List LogEntry :=
  prev.drop (prev.length - 49) ++
    [{ id := id, timestamp := timestamp, type := type, message := message }]

/-- The log buffer after appending a whole sequence of entries to an
initially empty buffer, one `addLog` at a time. -/
def appendLogs (entries : List LogEntry) : List LogEntry :=
  entries.foldl (fun prev e => addLog prev e.id e.timestamp e.type e.message) []

lemma addLog_eq (prev : List LogEntry) (e : LogEntry) :
    addLog prev e.id e.timestamp e.type e.message =
      prev.drop (prev.length - 49) ++ [e] := rfl

lemma appendLogs_eq (entries : List LogEntry) :
    appendLogs entries = entries.drop (entries.length - 50) := by
  induction entries using List.reverseRecOn with
  | nil => rfl
  | append_singleton es e ih =>
      simp only [appendLogs, List.foldl_append, List.foldl_cons, List.foldl_nil] at *
      rw [ih, addLog_eq, List.length_drop, List.drop_drop,
        List.drop_append_eq_append_drop, List.length_append]
      have h0 : es.length + [e].length - 50 - es.length = 0 := by
        simp only [List.length_singleton]
        omega
      have h1 : es.length - 50 + (es.length - (es.length - 50) - 49) =
          es.length + [e].length - 50 := by
        simp only [List.length_singleton]
        omega
      rw [h0, h1, List.drop_zero]

/-- The Firebase connection settings: `FirebaseConfig` of `types.ts` (staged
in `src/unnamed/part_001`): seven plain string fields plus the optional
`measurementId?: string`, embedded as `Option String`. -/
structure FirebaseConfig where
  apiKey : String
  authDomain : String
  databaseURL : String
  projectId : String
  storageBucket : String
  messagingSenderId : String
  appId : String
  measurementId : Option String
deriving DecidableEq

/-- JavaScript `a || b` on strings: the empty string is the only falsy one. -/
def jsOr (a b : String) : String := if a = "" then b else a

/-- JavaScript `a || b` where `a` may be `undefined` (an absent config or an
absent optional field): falsy means absent or the empty string. -/
def jsOrOpt (a b : Option String) : Option String :=
  if a.getD "" = "" then b else a

/-- The `finalConfig` merge of `initializeFirebase`
(`src/services/dataService.ts` lines 16-25): each field of the provided
config, falling back to `DEFAULT_CONFIG`'s field when missing or empty
(`config?.field || DEFAULT_CONFIG.field`). `DEFAULT_CONFIG`
(`src/services/firebaseConfig.ts`) is not under `src/`, so it stays a
parameter here. -/
def mergeConfig (config : Option FirebaseConfig) (dflt : FirebaseConfig) :
    FirebaseConfig :=
  { apiKey := jsOr ((config.map FirebaseConfig.apiKey).getD "") dflt.apiKey,
    authDomain := jsOr ((config.map FirebaseConfig.authDomain).getD "") dflt.authDomain,
    databaseURL := jsOr ((config.map FirebaseConfig.databaseURL).getD "") dflt.databaseURL,
    projectId := jsOr ((config.map FirebaseConfig.projectId).getD "") dflt.projectId,
    storageBucket := jsOr ((config.map FirebaseConfig.storageBucket).getD "") dflt.storageBucket,
    messagingSenderId := jsOr ((config.map FirebaseConfig.messagingSenderId).getD "") dflt.messagingSenderId,
    appId := jsOr ((config.map FirebaseConfig.appId).getD "") dflt.appId,
    measurementId := jsOrOpt (config.bind FirebaseConfig.measurementId) dflt.measurementId }

/-- Outcome of the external Firebase SDK calls (`initializeApp` /
`getDatabase`) inside `initializeFirebase`'s `try` block. -/
inductive SdkOutcome
  | ok
  | threw (msg : String)

/-- Outcome of the external `set(busLocationRef, ...)` database write inside
`pushTelemetry`'s `try` block. -/
inductive WriteOutcome
  | ok
  | threw (msg : String)

/-- The module-level mutable state of `src/services/dataService.ts` lines
9-12: `isMockMode`, whether `db` is a non-null database instance, and the
in-memory `mockDb` store. -/
structure DataServiceState where
  isMockMode : Bool
  dbInit : Bool
  mockDb : List BusTelemetry

/-- `initializeFirebase` from `src/services/dataService.ts` lines 14-59:
merges the config, validates `databaseURL` and `apiKey` (JS truthiness:
non-empty), and either initializes the SDK (errors caught and returned,
falling back to mock mode) or returns `"Missing Configuration"` and enters
mock mode. Returns the error string (`null` = `none` for success) and the
new module state. -/
def initializeFirebase (config : Option FirebaseConfig) (dflt : FirebaseConfig)
    (sdk : SdkOutcome) (st : DataServiceState) :
    Option String × DataServiceState :=
  let finalConfig := mergeConfig config dflt
  if finalConfig.databaseURL ≠ "" ∧ finalConfig.apiKey ≠ "" then
    match sdk with
    | SdkOutcome.ok => (none, { st with isMockMode := false, dbInit := true })
    | SdkOutcome.threw msg => (some msg, { st with isMockMode := true })
  else
    (some "Missing Configuration", { st with isMockMode := true })

/-- `pushTelemetry` from `src/services/dataService.ts` lines 62-95: in mock
mode it appends the record to `mockDb` and resolves `true`; in connected
mode with a database instance it resolves `true` on a successful write and
`false` when the write throws (the `catch` branch); with a null database
instance it resolves `false`. It is total: every path returns a boolean,
none rethrows. -/
def pushTelemetry (st : DataServiceState) (data : BusTelemetry)
    (write : WriteOutcome) : Bool × DataServiceState :=
  if st.isMockMode then
    (true, { st with mockDb := st.mockDb ++ [data] })
  else if st.dbInit then
    match write with
    | WriteOutcome.ok => (true, st)
    | WriteOutcome.threw _ => (false, st)
  else
    (false, st)

/-- The Telemetry Record `processPosition` assembles for one dispatch
(`src/App.tsx` lines 225-236), as a named value for use in statements. -/
noncomputable def assembledRecord (busId : String) (direction : Direction) (batteryLevel : ℝ)
    (isCharging : Bool) (latitude longitude : ℝ) (speed heading : Option ℝ)
    (now : ℤ) : BusTelemetry :=
  { busId := busId, direction := direction, routeId := "alabang-lawton",
    timestamp := now, latitude := latitude, longitude := longitude,
    speed := speed, heading := heading,
    batteryLevel := some (batteryLevel / 100),
    isCharging := some isCharging }

lemma processPosition_success (busId : String) (direction : Direction)
    (batteryLevel : ℝ) (isCharging : Bool) (latitude longitude : ℝ)
    (speed heading : Option ℝ) (now : ℤ) (mem : DispatchMemory)
    (h : (shouldDispatch latitude longitude now mem).1) :
    processPosition busId direction batteryLevel isCharging latitude longitude
        speed heading now mem (SinkBehavior.resolves true) =
      { mem := { lastLoc := some (latitude, longitude), lastTime := now },
        attempted := some (assembledRecord busId direction batteryLevel
          isCharging latitude longitude speed heading now),
        succeeded := true, log := some (LogType.success, "Sent"),
        status := some ("Data Synced", StatusType.success) } := by
  simp only [processPosition]
  rw [if_pos h]
  rfl

lemma processPosition_failure (busId : String) (direction : Direction)
    (batteryLevel : ℝ) (isCharging : Bool) (latitude longitude : ℝ)
    (speed heading : Option ℝ) (now : ℤ) (mem : DispatchMemory)
    (h : (shouldDispatch latitude longitude now mem).1) :
    processPosition busId direction batteryLevel isCharging latitude longitude
        speed heading now mem (SinkBehavior.resolves false) =
      { mem := mem,
        attempted := some (assembledRecord busId direction batteryLevel
          isCharging latitude longitude speed heading now),
        succeeded := false, log := some (LogType.error, "Firebase sync failed"),
        status := some ("Sync Failed", StatusType.error) } := by
  simp only [processPosition]
  rw [if_pos h]
  rfl

lemma processPosition_throws (busId : String) (direction : Direction)
    (batteryLevel : ℝ) (isCharging : Bool) (latitude longitude : ℝ)
    (speed heading : Option ℝ) (now : ℤ) (mem : DispatchMemory) (m : String)
    (h : (shouldDispatch latitude longitude now mem).1) :
    processPosition busId direction batteryLevel isCharging latitude longitude
        speed heading now mem (SinkBehavior.throws m) =
      { mem := mem,
        attempted := some (assembledRecord busId direction batteryLevel
          isCharging latitude longitude speed heading now),
        succeeded := false, log := some (LogType.error, "Net Err: " ++ m),
        status := some ("Network Error", StatusType.error) } := by
  simp only [processPosition]
  rw [if_pos h]
  rfl

/-- Shared concrete telemetry record for closed instances. -/
noncomputable def sampleTelemetry : BusTelemetry :=
  { busId := "BUS-042", direction := Direction.northbound,
    routeId := "alabang-lawton", timestamp := 0, latitude := 14,
    longitude := 121, speed := none, heading := none,
    batteryLevel := some 1, isCharging := some false }

/-- Shared concrete Firebase config with every field empty. -/
def emptyConfig : FirebaseConfig :=
  { apiKey := "", authDomain := "", databaseURL := "", projectId := "",
    storageBucket := "", messagingSenderId := "", appId := "",
    measurementId := none }

/-- C1: with a last-dispatched fix and time in Dispatch Memory, the dispatch
decision holds iff the haversine distance from the last-dispatched fix to
the new fix is strictly greater than 20 metres or the elapsed time is
strictly greater than 30000 milliseconds; in particular an exact distance
of 20 metres with elapsed time at most 30000 ms decides false. -/
theorem shouldDispatch_iff_moved_or_heartbeat (la lo lat lng : ℝ)
    (lastTime now : ℤ) :
    ((shouldDispatch lat lng now ⟨some (la, lo), lastTime⟩).1 ↔
      (getDistanceInMeters la lo lat lng > 20 ∨ now - lastTime > 30000)) ∧
    (getDistanceInMeters la lo lat lng = 20 → now - lastTime ≤ 30000 →
      ¬ (shouldDispatch lat lng now ⟨some (la, lo), lastTime⟩).1) := by
  constructor
  · exact Iff.rfl
  · intro h20 hel h
    have h' : getDistanceInMeters la lo lat lng > 20 ∨ now - lastTime > 30000 := h
    rcases h' with hd | ht
    · rw [h20] at hd
      exact lt_irrefl _ hd
    · omega

/-- C1 instance: the characterisation at a concrete memory and fix. -/
theorem shouldDispatch_iff_instance :
    ((shouldDispatch 14 121 40000 ⟨some (14, 121), 0⟩).1 ↔
      (getDistanceInMeters 14 121 14 121 > 20 ∨ (40000 : ℤ) - 0 > 30000)) :=
  (shouldDispatch_iff_moved_or_heartbeat 14 121 14 121 0 40000).1

/-- C3: while Dispatch Memory holds no last-dispatched fix, the decision is
true and the reported distance moved is 0: the first fix of a session
always dispatches. -/
theorem first_fix_always_dispatches (lat lng : ℝ) (now lastTime : ℤ) :
    (shouldDispatch lat lng now ⟨none, lastTime⟩).1 ∧
    (shouldDispatch lat lng now ⟨none, lastTime⟩).2 = 0 :=
  ⟨trivial, rfl⟩

/-- C7: `getDistanceInMeters` is symmetric, returns 0 on identical fixes, is
non-negative, and is the haversine formula on a sphere of radius
6,371,000 m (the source's `R = 6371e3`). -/
theorem distance_symm_zero_nonneg (lat1 lon1 lat2 lon2 : ℝ) :
    getDistanceInMeters lat1 lon1 lat2 lon2 =
      getDistanceInMeters lat2 lon2 lat1 lon1 ∧
    getDistanceInMeters lat1 lon1 lat1 lon1 = 0 ∧
    0 ≤ getDistanceInMeters lat1 lon1 lat2 lon2 ∧
    getDistanceInMeters lat1 lon1 lat2 lon2 =
      6371000 * (2 * atan2 (Real.sqrt (haversineTerm lat1 lon1 lat2 lon2))
        (Real.sqrt (1 - haversineTerm lat1 lon1 lat2 lon2))) := by
  refine ⟨getDistanceInMeters_comm lat1 lon1 lat2 lon2,
    getDistanceInMeters_self lat1 lon1,
    getDistanceInMeters_nonneg lat1 lon1 lat2 lon2, ?_⟩
  have h : (6371e3 : ℝ) = 6371000 := by norm_num
  simp only [getDistanceInMeters, haversineTerm, h]

/-- C5: appending any sequence of entries to an initially empty log buffer
leaves exactly the most recent `min N 50` entries in insertion order, never
more than 50; for a sequence of 60 entries the oldest 10 are dropped. -/
theorem log_buffer_keeps_most_recent_fifty (entries : List LogEntry) :
    appendLogs entries = entries.drop (entries.length - 50) ∧
    (appendLogs entries).length = min entries.length 50 ∧
    (appendLogs entries).length ≤ 50 ∧
    (entries.length = 60 → appendLogs entries = entries.drop 10) := by
  refine ⟨appendLogs_eq entries, ?_, ?_, ?_⟩
  · rw [appendLogs_eq, List.length_drop]
    omega
  · rw [appendLogs_eq, List.length_drop]
    omega
  · intro h60
    rw [appendLogs_eq, h60]

/-- Shared concrete list of sixty log entries. -/
def sixtyLogs : List LogEntry :=
  (List.range 60).map fun (i : ℕ) =>
    { id := toString i, timestamp := (i : ℤ), type := LogType.info,
      message := "entry" }

/-- C5 instance: after sixty appends the oldest ten entries are gone. -/
theorem log_buffer_sixty_instance :
    appendLogs sixtyLogs = sixtyLogs.drop 10 :=
  (log_buffer_keeps_most_recent_fifty sixtyLogs).2.2.2
    (by simp only [sixtyLogs, List.length_map, List.length_range])

/-- C2: when the filter decided to dispatch and the sink push resolves
`false` or throws, Dispatch Memory is unchanged, an error log entry and an
error status are emitted, and (the embedded `processPosition` being total)
no exception propagates; the next fix's decision against the resulting
memory is the decision against the pre-failure memory. -/
theorem failed_dispatch_preserves_memory (busId : String)
    (direction : Direction) (batteryLevel : ℝ) (isCharging : Bool)
    (latitude longitude : ℝ) (speed heading : Option ℝ) (now : ℤ)
    (mem : DispatchMemory) (m : String) (lat2 lng2 : ℝ) (now2 : ℤ)
    (h : (shouldDispatch latitude longitude now mem).1) :
    (processPosition busId direction batteryLevel isCharging latitude
        longitude speed heading now mem (SinkBehavior.resolves false)).mem = mem ∧
    (processPosition busId direction batteryLevel isCharging latitude
        longitude speed heading now mem (SinkBehavior.resolves false)).log =
      some (LogType.error, "Firebase sync failed") ∧
    (processPosition busId direction batteryLevel isCharging latitude
        longitude speed heading now mem (SinkBehavior.resolves false)).status =
      some ("Sync Failed", StatusType.error) ∧
    (processPosition busId direction batteryLevel isCharging latitude
        longitude speed heading now mem (SinkBehavior.throws m)).mem = mem ∧
    (processPosition busId direction batteryLevel isCharging latitude
        longitude speed heading now mem (SinkBehavior.throws m)).log =
      some (LogType.error, "Net Err: " ++ m) ∧
    shouldDispatch lat2 lng2 now2
        (processPosition busId direction batteryLevel isCharging latitude
          longitude speed heading now mem (SinkBehavior.resolves false)).mem =
      shouldDispatch lat2 lng2 now2 mem ∧
    shouldDispatch lat2 lng2 now2
        (processPosition busId direction batteryLevel isCharging latitude
          longitude speed heading now mem (SinkBehavior.throws m)).mem =
      shouldDispatch lat2 lng2 now2 mem := by
  rw [processPosition_failure busId direction batteryLevel isCharging latitude
    longitude speed heading now mem h,
    processPosition_throws busId direction batteryLevel isCharging latitude
    longitude speed heading now mem m h]
  exact ⟨rfl, rfl, rfl, rfl, rfl, rfl, rfl⟩

/-- C2 instance: a first fix (memory empty, so the filter decides true)
whose dispatch fails leaves the empty memory in place and emits the error
log. -/
theorem failed_dispatch_instance :
    (processPosition "BUS-042" Direction.northbound 100 false 14 121 none
        none 0 ⟨none, 0⟩ (SinkBehavior.resolves false)).mem =
      (⟨none, 0⟩ : DispatchMemory) ∧
    (processPosition "BUS-042" Direction.northbound 100 false 14 121 none
        none 0 ⟨none, 0⟩ (SinkBehavior.resolves false)).log =
      some (LogType.error, "Firebase sync failed") ∧
    (processPosition "BUS-042" Direction.northbound 100 false 14 121 none
        none 0 ⟨none, 0⟩ (SinkBehavior.resolves false)).status =
      some ("Sync Failed", StatusType.error) ∧
    (processPosition "BUS-042" Direction.northbound 100 false 14 121 none
        none 0 ⟨none, 0⟩ (SinkBehavior.throws "offline")).mem =
      (⟨none, 0⟩ : DispatchMemory) ∧
    (processPosition "BUS-042" Direction.northbound 100 false 14 121 none
        none 0 ⟨none, 0⟩ (SinkBehavior.throws "offline")).log =
      some (LogType.error, "Net Err: " ++ "offline") ∧
    shouldDispatch 14 121 5000
        (processPosition "BUS-042" Direction.northbound 100 false 14 121 none
          none 0 ⟨none, 0⟩ (SinkBehavior.resolves false)).mem =
      shouldDispatch 14 121 5000 ⟨none, 0⟩ ∧
    shouldDispatch 14 121 5000
        (processPosition "BUS-042" Direction.northbound 100 false 14 121 none
          none 0 ⟨none, 0⟩ (SinkBehavior.throws "offline")).mem =
      shouldDispatch 14 121 5000 ⟨none, 0⟩ :=
  failed_dispatch_preserves_memory "BUS-042" Direction.northbound 100 false
    14 121 none none 0 ⟨none, 0⟩ "offline" 14 121 5000 trivial

/-- C8: one `processPosition` step never decreases `lastDispatchedAt`: the
memory's time field is updated only on a successful dispatch, and then to
the current instant, which is at least the stored one when the stream of
`now` instants is non-decreasing. -/
theorem lastDispatchedAt_monotone (busId : String) (direction : Direction)
    (batteryLevel : ℝ) (isCharging : Bool) (latitude longitude : ℝ)
    (speed heading : Option ℝ) (now : ℤ) (mem : DispatchMemory)
    (sink : SinkBehavior) (h : mem.lastTime ≤ now) :
    mem.lastTime ≤ (processPosition busId direction batteryLevel isCharging
      latitude longitude speed heading now mem sink).mem.lastTime := by
  simp only [processPosition]
  split_ifs with hd
  · cases sink with
    | resolves success =>
        cases success
        · exact le_refl _
        · exact h
    | throws m => exact le_refl _
  · exact le_refl _

/-- C8 instance: at a concrete step with `lastTime = 0 ≤ now = 5`. -/
theorem lastDispatchedAt_monotone_instance :
    (⟨none, 0⟩ : DispatchMemory).lastTime ≤
      (processPosition "BUS-042" Direction.northbound 100 false 14 121 none
        none 5 ⟨none, 0⟩ (SinkBehavior.resolves true)).mem.lastTime :=
  lastDispatchedAt_monotone "BUS-042" Direction.northbound 100 false 14 121
    none none 5 ⟨none, 0⟩ (SinkBehavior.resolves true) (by decide)

/-- C10: one `now` instant serves the elapsed-time comparison, the record's
timestamp and (on success) the stored `lastDispatchedAt`: after a
successful dispatch the attempted record is the assembled one with
`timestamp = now`, the memory's time is that same `now`, and the memory's
fix is the record's coordinates. -/
theorem single_now_consistency (busId : String) (direction : Direction)
    (batteryLevel : ℝ) (isCharging : Bool) (latitude longitude : ℝ)
    (speed heading : Option ℝ) (now : ℤ) (mem : DispatchMemory)
    (h : (shouldDispatch latitude longitude now mem).1) :
    (processPosition busId direction batteryLevel isCharging latitude
        longitude speed heading now mem (SinkBehavior.resolves true)).attempted =
      some (assembledRecord busId direction batteryLevel isCharging latitude
        longitude speed heading now) ∧
    (assembledRecord busId direction batteryLevel isCharging latitude
      longitude speed heading now).timestamp = now ∧
    (processPosition busId direction batteryLevel isCharging latitude
      longitude speed heading now mem (SinkBehavior.resolves true)).mem.lastTime = now ∧
    (processPosition busId direction batteryLevel isCharging latitude
        longitude speed heading now mem (SinkBehavior.resolves true)).mem.lastLoc =
      some ((assembledRecord busId direction batteryLevel isCharging latitude
        longitude speed heading now).latitude,
        (assembledRecord busId direction batteryLevel isCharging latitude
          longitude speed heading now).longitude) := by
  rw [processPosition_success busId direction batteryLevel isCharging
    latitude longitude speed heading now mem h]
  exact ⟨rfl, rfl, rfl, rfl⟩

/-- C10 instance: at a concrete first fix dispatched successfully. -/
theorem single_now_instance :
    (processPosition "BUS-042" Direction.northbound 100 false 14 121 none
        none 7 ⟨none, 0⟩ (SinkBehavior.resolves true)).attempted =
      some (assembledRecord "BUS-042" Direction.northbound 100 false 14 121
        none none 7) ∧
    (assembledRecord "BUS-042" Direction.northbound 100 false 14 121 none
      none 7).timestamp = 7 ∧
    (processPosition "BUS-042" Direction.northbound 100 false 14 121 none
      none 7 ⟨none, 0⟩ (SinkBehavior.resolves true)).mem.lastTime = 7 ∧
    (processPosition "BUS-042" Direction.northbound 100 false 14 121 none
        none 7 ⟨none, 0⟩ (SinkBehavior.resolves true)).mem.lastLoc =
      some ((assembledRecord "BUS-042" Direction.northbound 100 false 14 121
        none none 7).latitude,
        (assembledRecord "BUS-042" Direction.northbound 100 false 14 121
          none none 7).longitude) :=
  single_now_consistency "BUS-042" Direction.northbound 100 false 14 121
    none none 7 ⟨none, 0⟩ trivial

/-- C4 counterexample: toggling tracking off and on again does NOT reset
Dispatch Memory. `toggleTracking` only flips `isTracking`; after toggling
twice the memory still holds the previous session's last-dispatched fix,
and a fix identical to it at elapsed time 0 decides false, not true. -/
theorem toggle_twice_identical_fix_not_dispatched :
    (toggleTracking (toggleTracking
      { isTracking := true,
        mem := { lastLoc := some (14, 121), lastTime := 1000 } })).mem.lastLoc =
      some (14, 121) ∧
    ¬ (shouldDispatch 14 121 1000 (toggleTracking (toggleTracking
      { isTracking := true,
        mem := { lastLoc := some (14, 121), lastTime := 1000 } })).mem).1 := by
  constructor
  · rfl
  · intro h
    have h' : getDistanceInMeters 14 121 14 121 > 20 ∨
        (1000 : ℤ) - 1000 > 30000 := h
    rcases h' with hd | ht
    · rw [getDistanceInMeters_self] at hd
      norm_num at hd
    · omega

/-- C4 (amended): toggling tracking off and then on again leaves Dispatch
Memory unchanged (the refs are never reset), so in the next session a fix
identical to the last-dispatched one dispatches iff the elapsed time
exceeds 30000 ms — not unconditionally. -/
theorem toggle_twice_preserves_memory (s : AppTrackingState) (la lo : ℝ)
    (now : ℤ) (h : s.mem.lastLoc = some (la, lo)) :
    (toggleTracking (toggleTracking s)).mem = s.mem ∧
    ((shouldDispatch la lo now (toggleTracking (toggleTracking s)).mem).1 ↔
      now - s.mem.lastTime > 30000) := by
  refine ⟨rfl, ?_⟩
  show (shouldDispatch la lo now s.mem).1 ↔ _
  simp only [shouldDispatch, h]
  constructor
  · rintro (hd | ht)
    · rw [getDistanceInMeters_self] at hd
      norm_num at hd
    · exact ht
  · intro ht
    exact Or.inr ht

/-- C4 (amended) instance: concrete state, identical fix, elapsed 39000 ms. -/
theorem toggle_twice_preserves_memory_instance :
    (toggleTracking (toggleTracking
      { isTracking := true,
        mem := { lastLoc := some (14, 121), lastTime := 1000 } })).mem =
      ({ lastLoc := some (14, 121), lastTime := 1000 } : DispatchMemory) ∧
    ((shouldDispatch 14 121 40000 (toggleTracking (toggleTracking
      { isTracking := true,
        mem := { lastLoc := some (14, 121), lastTime := 1000 } })).mem).1 ↔
      (40000 : ℤ) - 1000 > 30000) :=
  toggle_twice_preserves_memory
    { isTracking := true,
      mem := { lastLoc := some (14, 121), lastTime := 1000 } }
    14 121 40000 rfl

/-- C6 counterexample: with `databaseURL` and `apiKey` missing,
`initializeFirebase` does surface `"Missing Configuration"` and enters mock
mode — but in mock mode `pushTelemetry` resolves `true`: a dispatch attempt
REPORTS SUCCESS (storing locally), it is not "expected to fail". -/
theorem mock_mode_push_reports_success :
    (initializeFirebase (some emptyConfig) emptyConfig SdkOutcome.ok
      ⟨true, false, []⟩).1 = some "Missing Configuration" ∧
    (initializeFirebase (some emptyConfig) emptyConfig SdkOutcome.ok
      ⟨true, false, []⟩).2.isMockMode = true ∧
    (pushTelemetry (initializeFirebase (some emptyConfig) emptyConfig
        SdkOutcome.ok ⟨true, false, []⟩).2 sampleTelemetry
      WriteOutcome.ok).1 = true :=
  ⟨rfl, rfl, rfl⟩

/-- C6 (amended): when the merged configuration lacks `databaseURL` or
`apiKey`, initialization surfaces the status message
`"Missing Configuration"` and the system falls back to mock mode, in which
dispatch attempts report success and append the record to the local
in-memory store (no data reaches the configured backend) until the
configuration is corrected. -/
theorem missing_config_enters_mock_mode (config : Option FirebaseConfig)
    (dflt : FirebaseConfig) (sdk : SdkOutcome) (st : DataServiceState)
    (data : BusTelemetry) (w : WriteOutcome)
    (h : ¬ ((mergeConfig config dflt).databaseURL ≠ "" ∧
      (mergeConfig config dflt).apiKey ≠ "")) :
    (initializeFirebase config dflt sdk st).1 = some "Missing Configuration" ∧
    (initializeFirebase config dflt sdk st).2.isMockMode = true ∧
    pushTelemetry (initializeFirebase config dflt sdk st).2 data w =
      (true, { (initializeFirebase config dflt sdk st).2 with
        mockDb := (initializeFirebase config dflt sdk st).2.mockDb ++ [data] }) := by
  have he : initializeFirebase config dflt sdk st =
      (some "Missing Configuration", { st with isMockMode := true }) := by
    simp only [initializeFirebase]
    rw [if_neg h]
  rw [he]
  exact ⟨rfl, rfl, rfl⟩

/-- C6 (amended) instance: no stored config and empty defaults. -/
theorem missing_config_mock_instance :
    (initializeFirebase none emptyConfig SdkOutcome.ok
      ⟨false, false, []⟩).1 = some "Missing Configuration" ∧
    (initializeFirebase none emptyConfig SdkOutcome.ok
      ⟨false, false, []⟩).2.isMockMode = true ∧
    pushTelemetry (initializeFirebase none emptyConfig SdkOutcome.ok
        ⟨false, false, []⟩).2 sampleTelemetry WriteOutcome.ok =
      (true, { (initializeFirebase none emptyConfig SdkOutcome.ok
          ⟨false, false, []⟩).2 with
        mockDb := (initializeFirebase none emptyConfig SdkOutcome.ok
          ⟨false, false, []⟩).2.mockDb ++ [sampleTelemetry] }) :=
  missing_config_enters_mock_mode none emptyConfig SdkOutcome.ok
    ⟨false, false, []⟩ sampleTelemetry WriteOutcome.ok (by decide)

/-- C9: `pushTelemetry` is total at its interface — every call returns a
boolean, none rethrows (the embedded function maps the caught write error
to `false`): in mock mode it appends the record to the in-memory store and
returns `true`; in connected mode a successful write returns `true` and a
thrown write error returns `false`; a null database instance returns
`false`. -/
theorem pushTelemetry_total_interface (st : DataServiceState)
    (data : BusTelemetry) (w : WriteOutcome) (m : String) :
    (st.isMockMode = true →
      pushTelemetry st data w =
        (true, { st with mockDb := st.mockDb ++ [data] })) ∧
    (st.isMockMode = false → st.dbInit = true →
      pushTelemetry st data WriteOutcome.ok = (true, st)) ∧
    (st.isMockMode = false → st.dbInit = true →
      pushTelemetry st data (WriteOutcome.threw m) = (false, st)) ∧
    (st.isMockMode = false → st.dbInit = false →
      pushTelemetry st data w = (false, st)) := by
  obtain ⟨mock, db, logs⟩ := st
  cases mock <;> cases db <;> simp [pushTelemetry]

/-- C9 instance: a mock-mode push appends and reports success. -/
theorem pushTelemetry_mock_instance :
    pushTelemetry ⟨true, false, []⟩ sampleTelemetry WriteOutcome.ok =
      (true, ⟨true, false, [sampleTelemetry]⟩) :=
  (pushTelemetry_total_interface ⟨true, false, []⟩ sampleTelemetry
    WriteOutcome.ok "").1 rfl

end DriverApp
